import Mathlib

/-!
Shallow embedding of the client-side code of the Crop-AI-Sys repository:
the uploader and result renderer (src/unnamed/part_000) and the chat widget
(src/static/js/chatbot.js).  DOM mutation is modelled by explicit state
records, fetch by an outcome parameter, and each event handler by a pure
function from state (and outcome) to state together with the list of DOM
events and network requests it performs in order.
-/

set_option maxRecDepth 80000

deriving instance DecidableEq for Except

namespace CropAI

/-- How a DOM node's content was assigned: `el.innerText = s` stores the
string verbatim; `el.innerHTML = s` stores markup that the browser parses. -/
inductive InsertMode
  | innerText
  | innerHTML
  deriving DecidableEq, Repr

/-- A DOM element as the embedding sees it: its class attribute, how its
content was assigned, and the assigned string. -/
structure DomNode where
  className : String
  mode : InsertMode
  content : String
  deriving DecidableEq, Repr

/-- Browser semantics of displaying a node's content: drops the characters
between < and > when the content was assigned as markup (innerHTML), keeps
the string verbatim when it was assigned as text (innerText). -/
def stripTagsAux : List Char → Bool → List Char
  | [], _ => []
  | c :: cs, true => if c = '>' then stripTagsAux cs false else stripTagsAux cs true
  | c :: cs, false => if c = '<' then stripTagsAux cs true else c :: stripTagsAux cs false

/-- The text a browser displays for a node (tags removed for innerHTML). -/
def displayedText (n : DomNode) : String :=
  match n.mode with
  | .innerText => n.content
  | .innerHTML => String.mk (stripTagsAux n.content.data false)

/-- String `p` occurs contiguously inside `s`. -/
def substrOf (p s : String) : Prop :=
  p.data <:+: s.data

instance substrOfDec (p s : String) : Decidable (substrOf p s) :=
  inferInstanceAs (Decidable (p.data <:+: s.data))

/-! ## Result renderer (src/unnamed/part_000, function displayResults) -/

/-- The Analysis Result record read from the upload response
(`data.result`).  All advisory fields are carried; `displayResults` decides
from `status` which of them it renders. -/
structure AnalysisResult where
  plant : String
  status : String
  confidence : Nat
  disease : String
  symptoms : String
  treatments : String
  prevention : String
  care_tips : String
  deriving DecidableEq, Repr

/-- The HTML string `displayResults` builds: the header template with plant,
status and confidence, then the disease block when `status === "Diseased"`
and the care-tips block otherwise, then the closing tag.  Template-literal
text (including its newlines and indentation) is copied from the source. -/
def resultCardHtml (result : AnalysisResult) : String :=
  ("<div class=\"result-card\">\n        <h3>Plant: " ++ result.plant
      ++ "</h3>\n        <p>Status: " ++ result.status
      ++ "</p>\n        <p>Confidence: " ++ Nat.repr result.confidence ++ "%</p>"
    ++ (if result.status = "Diseased" then
          "<p><b>Disease:</b> " ++ result.disease
            ++ "</p>\n                 <p><b>Symptoms:</b> " ++ result.symptoms
            ++ "</p>\n                 <p><b>Treatments:</b> " ++ result.treatments
            ++ "</p>\n                 <p><b>Prevention:</b> " ++ result.prevention ++ "</p>"
        else
          "<p><b>Care Tips:</b> " ++ result.care_tips ++ "</p>"))
  ++ "</div>"

/-- The fixed results region (`document.getElementById("results")`). -/
structure ResultsRegion where
  mode : InsertMode
  content : String
  deriving DecidableEq, Repr

/-- Function `displayResults(result)`: builds the card HTML and assigns it to
`resultsDiv.innerHTML`, replacing the region's previous contents. -/
def displayResults (result : AnalysisResult) (_resultsDiv : ResultsRegion) : ResultsRegion :=
  { mode := .innerHTML, content := resultCardHtml result }

/-! ## Uploader (src/unnamed/part_000) -/

/-- A file held by the browser: name, MIME type and raw bytes. -/
structure JsFile where
  name : String
  mime : String
  bytes : List Nat
  deriving DecidableEq, Repr

/-- The base64 alphabet, indexed 0..63. -/
def base64Chars : List Char :=
  "ABCDEFGHIJKLMNOPQRSTUVWXYZabcdefghijklmnopqrstuvwxyz0123456789+/".data

/-- The base64 digit for a 6-bit value. -/
def b64Digit (n : Nat) : Char :=
  base64Chars.getD n 'A'

/-- Standard base64 of a byte list, with `=` padding. -/
def base64Encode : List Nat → String
  | [] => ""
  | [b1] =>
    String.mk [b64Digit (b1 / 4), b64Digit (b1 % 4 * 16), '=', '=']
  | [b1, b2] =>
    String.mk [b64Digit (b1 / 4), b64Digit (b1 % 4 * 16 + b2 / 16), b64Digit (b2 % 16 * 4), '=']
  | b1 :: b2 :: b3 :: rest =>
    String.mk [b64Digit (b1 / 4), b64Digit (b1 % 4 * 16 + b2 / 16),
               b64Digit (b2 % 16 * 4 + b3 / 64), b64Digit (b3 % 64)]
      ++ base64Encode rest

/-- Browser primitive `FileReader.readAsDataURL`: a data URL holding the
file's bytes base64-encoded, produced locally with no network request. -/
def readAsDataURL (f : JsFile) : String :=
  "data:" ++ f.mime ++ ";base64," ++ base64Encode f.bytes

/-- The uploader's page state: the module-level `selectedFile` binding, the
preview region's innerHTML, and the analyze button's `disabled` flag. -/
structure UploadState where
  selectedFile : Option JsFile
  previewHTML : String
  analyzeDisabled : Bool
  deriving DecidableEq, Repr

/-- Function `handleFiles(files)`: when the selection is non-empty, stores
`files[0]` in `selectedFile`, renders the preview from the file's data URL
(the `reader.onload` assignment), and clears the analyze button's
`disabled` flag; an empty selection changes nothing. -/
def handleFiles (files : List JsFile) (s : UploadState) : UploadState :=
  match files with
  | [] => s
  | f :: _ =>
    { selectedFile := some f
      previewHTML := "<img src=\"" ++ readAsDataURL f ++ "\" alt=\"Preview\">"
      analyzeDisabled := false }

/-- A POST /upload request: multipart form data with the single field
`file`. -/
structure UploadRequest where
  file : JsFile
  deriving DecidableEq, Repr

/-- The `change` listener on the hidden file input: runs
`handleFiles(e.target.files)` and performs no network request. -/
def fileInputChange (files : List JsFile) (s : UploadState) :
    UploadState × List UploadRequest :=
  (handleFiles files s, [])

/-- The `drop` listener on the drop area: prevents the default, clears the
hover class, runs `handleFiles(e.dataTransfer.files)`; no network request. -/
def dropAreaDrop (files : List JsFile) (s : UploadState) :
    UploadState × List UploadRequest :=
  (handleFiles files s, [])

/-- A sequence of file selections applied in order. -/
def uploadRun (s : UploadState) (selections : List (List JsFile)) : UploadState :=
  selections.foldl (fun st files => handleFiles files st) s

/-- What the upload fetch and the subsequent `res.json()` come to: the
request never settling, the response body failing to parse as JSON, or a
parsed body whose `result` field is an Analysis Result; `ok` records
whether the HTTP status was 2xx (the code never reads it). -/
inductive UploadOutcome
  | netError
  | response (ok : Bool) (body : Except Unit AnalysisResult)
  deriving DecidableEq, Repr

/-- An error the upload flow leaves uncaught (there is no try/catch). -/
inductive UploadError
  | networkFailure
  | malformedJson
  deriving DecidableEq, Repr

/-- The uncaught rejection the analyze click ends in for a given outcome. -/
def analyzeErrorOf : UploadOutcome → Option UploadError
  | .netError => some .networkFailure
  | .response _ (.error _) => some .malformedJson
  | .response _ (.ok _) => none

/-- The `analyzeBtn` click listener: returns unchanged when no file is
selected; otherwise POSTs the file, and on a parsed response renders
`data.result` via `displayResults`.  On a failed fetch or unparsable body
the rejection propagates (third component) and the DOM is left as it was. -/
def analyzeClick (outcome : UploadOutcome) (s : UploadState) (resultsDiv : ResultsRegion) :
    ResultsRegion × List UploadRequest × Option UploadError :=
  match s.selectedFile with
  | none => (resultsDiv, [], none)
  | some f =>
    match outcome with
    | .netError => (resultsDiv, [{ file := f }], some .networkFailure)
    | .response _ (.error _) => (resultsDiv, [{ file := f }], some .malformedJson)
    | .response _ (.ok result) => (displayResults result resultsDiv, [{ file := f }], none)

/-! ## Chat widget (src/static/js/chatbot.js) -/

/-- Browser primitive `String.prototype.trim`: strips whitespace from both
ends of the string. -/
def jsTrim (s : String) : String :=
  String.mk (((s.data.dropWhile Char.isWhitespace).reverse.dropWhile Char.isWhitespace).reverse)

/-- The JSON body of a POST /api/chat request:
`JSON.stringify({session_id: sessionId, message: text})`. -/
structure ChatRequest where
  session_id : Option String
  message : String
  deriving DecidableEq, Repr

/-- A parsed chat response body: `reply` and the optional `quick_replies`
list. -/
structure ChatResponse where
  reply : String
  quick_replies : Option (List String)
  deriving DecidableEq, Repr

/-- What the chat fetch and `res.json()` come to (as `UploadOutcome`, with
`ok` recording the 2xx flag the code never reads). -/
inductive FetchOutcome
  | netError
  | response (ok : Bool) (body : Except Unit ChatResponse)
  deriving DecidableEq, Repr

/-- An error the chat flow leaves uncaught (there is no try/catch). -/
inductive ChatError
  | networkFailure
  | malformedJson
  deriving DecidableEq, Repr

/-- The uncaught rejection `sendMessage` ends in for a given outcome. -/
def chatErrorOf : FetchOutcome → Option ChatError
  | .netError => some .networkFailure
  | .response _ (.error _) => some .malformedJson
  | .response _ (.ok _) => none

/-- The chat widget's page state: the transcript (children of
`chatHistory`), the input field's value, the labels of the current
quick-reply buttons, the module-level `sessionId` binding, and the
browser's local storage. -/
structure ChatState where
  chatHistory : List DomNode
  chatInputValue : String
  quickReplies : List String
  sessionId : Option String
  localStorage : List (String × String)
  deriving DecidableEq, Repr

/-- One primitive effect a chat handler performs, in source order. -/
inductive DomEvent
  | appendMsg (who text : String)
  | setInputValue (v : String)
  | request (r : ChatRequest)
  | setQuickReplies (labels : List String)
  | storageRead (key : String)
  | storageWrite (key v : String)
  deriving DecidableEq, Repr

/-- The element `addMessage(who, text)` builds: class
`"msg " + (who === "bot" ? "bot" : "user")`, content assigned through
`el.innerText`. -/
def addMessageNode (who text : String) : DomNode :=
  { className := "msg " ++ (if who = "bot" then "bot" else "user")
    mode := .innerText
    content := text }

/-- A quick-reply button as `renderQuickReplies` builds it: class
`"quick-btn"`, label assigned through `b.innerText`. -/
def quickReplyButton (q : String) : DomNode :=
  { className := "quick-btn", mode := .innerText, content := q }

/-- Effect of one `DomEvent` on the page state.  `appendMsg` is
`addMessage`: it appends the node to the transcript; `setQuickReplies` is
`renderQuickReplies`: it clears the container and appends one button per
label; a `request` leaves the DOM alone; a `storageWrite` updates local
storage (no handler in the source emits one). -/
def applyDomEvent (s : ChatState) : DomEvent → ChatState
  | .appendMsg who text => { s with chatHistory := s.chatHistory ++ [addMessageNode who text] }
  | .setInputValue v => { s with chatInputValue := v }
  | .request _ => s
  | .setQuickReplies labels => { s with quickReplies := labels }
  | .storageRead _ => s
  | .storageWrite key v => { s with localStorage := (key, v) :: s.localStorage }

/-- Runs a list of DOM events in order. -/
def runEvents (s : ChatState) (evs : List DomEvent) : ChatState :=
  evs.foldl applyDomEvent s

/-- The network requests among a trace's events, in order. -/
def requestsOf (evs : List DomEvent) : List ChatRequest :=
  evs.filterMap fun e =>
    match e with
    | .request r => some r
    | _ => none

/-- The texts of the user-role entries a trace appends, in order. -/
def userAppendsOf (evs : List DomEvent) : List String :=
  evs.filterMap fun e =>
    match e with
    | .appendMsg who text => if who = "user" then some text else none
    | _ => none

/-- The local-storage operations among a trace's events. -/
def storageOpsOf (evs : List DomEvent) : List DomEvent :=
  evs.filter fun e =>
    match e with
    | .storageRead _ => true
    | .storageWrite _ _ => true
    | _ => false

/-- Function `sendMessage(text)` as the ordered trace of its effects: append the
user entry, clear the input, POST `{session_id, message}`; then, only when
the fetch resolves and the body parses, append the bot entry with
`data.reply` and re-render the quick replies from
`data.quick_replies || []`. -/
def sendMessage (text : String) (outcome : FetchOutcome) (s : ChatState) : List DomEvent :=
  [.appendMsg "user" text,
   .setInputValue "",
   .request { session_id := s.sessionId, message := text }]
  ++ match outcome with
     | .netError => []
     | .response _ (.error _) => []
     | .response _ (.ok data) =>
       [.appendMsg "bot" data.reply,
        .setQuickReplies (data.quick_replies.getD [])]

/-- The `sendBtn` click listener: trims the input value, returns without
any effect when the trimmed text is empty, otherwise runs `sendMessage` on
the trimmed text. -/
def sendBtnClick (outcome : FetchOutcome) (s : ChatState) : List DomEvent :=
  if jsTrim s.chatInputValue = "" then [] else sendMessage (jsTrim s.chatInputValue) outcome s

/-- The `keydown` listener on the chat input: on Enter it prevents the
default (second component `true`) and delegates to the send button's click
handler; any other key is left to the browser. -/
def chatInputKeydown (key : String) (outcome : FetchOutcome) (s : ChatState) :
    List DomEvent × Bool :=
  if key = "Enter" then (sendBtnClick outcome s, true) else ([], false)

/-- The `load` listener: adds the hardcoded welcome bot message and renders
the two fixed quick replies, with no network request. -/
def windowLoadEvents : List DomEvent :=
  [.appendMsg "bot"
     "Hello — I can help with crop care, uploading, or disease symptoms. Try a quick suggestion.",
   .setQuickReplies ["How to upload a photo?", "Tomato care tips"]]

/-- The local-storage key the script reads. -/
def sessionKey : String := "crop_chat_session"

/-- Top-level script evaluation: empty transcript, empty input, no quick
replies, and `sessionId = localStorage.getItem("crop_chat_session")` — the
one storage operation the script ever performs (second component). -/
def initChat (store : List (String × String)) : ChatState × List DomEvent :=
  ({ chatHistory := []
     chatInputValue := ""
     quickReplies := []
     sessionId := store.lookup sessionKey
     localStorage := store },
   [.storageRead sessionKey])

/-- A user-level event the page can receive. -/
inductive ChatEvent
  | load
  | setInput (v : String)
  | clickSend (outcome : FetchOutcome)
  | keydown (key : String) (outcome : FetchOutcome)
  | clickQuickReply (i : Nat) (outcome : FetchOutcome)
  deriving DecidableEq, Repr

/-- The trace of effects one user-level event causes from state `s`.
Clicking quick-reply button `i` runs its `onclick`, `() => sendMessage(q)`
with `q` the label it was rendered with. -/
def stepChat (s : ChatState) : ChatEvent → List DomEvent
  | .load => windowLoadEvents
  | .setInput v => [.setInputValue v]
  | .clickSend outcome => sendBtnClick outcome s
  | .keydown key outcome => (chatInputKeydown key outcome s).1
  | .clickQuickReply i outcome =>
    match List.get? s.quickReplies i with
    | some q => sendMessage q outcome s
    | none => []

/-- Runs a sequence of user-level events, collecting the full trace. -/
def runChat (s : ChatState) : List ChatEvent → ChatState × List DomEvent
  | [] => (s, [])
  | e :: es =>
    let evs := stepChat s e
    let r := runChat (runEvents s evs) es
    (r.1, evs ++ r.2)

/-! ## Concrete sample values (used by witnesses and counterexamples) -/

/-- A Diseased result with empty texts: the diseased branch's bare template. -/
def diseasedTemplateOnly : AnalysisResult :=
  { plant := "", status := "Diseased", confidence := 0, disease := "",
    symptoms := "", treatments := "", prevention := "", care_tips := "" }

/-- A Healthy result with empty texts: the healthy branch's bare template. -/
def healthyTemplateOnly : AnalysisResult :=
  { plant := "", status := "Healthy", confidence := 0, disease := "",
    symptoms := "", treatments := "", prevention := "", care_tips := "" }

/-- A result whose plant field carries HTML markup. -/
def markupResult : AnalysisResult :=
  { plant := "<script>alert(1)</script>", status := "Healthy", confidence := 87,
    disease := "", symptoms := "", treatments := "", prevention := "",
    care_tips := "Water daily" }

/-- A sample local storage holding a session token. -/
def sampleStore : List (String × String) := [("crop_chat_session", "sess-1")]

/-- The chat page right after load against `sampleStore`. -/
def sampleChatState : ChatState :=
  { chatHistory := []
    chatInputValue := ""
    quickReplies := ["How to upload a photo?", "Tomato care tips"]
    sessionId := some "sess-1"
    localStorage := sampleStore }

/-- A sample parsed chat response. -/
def sampleResponse : ChatResponse :=
  { reply := "Water regularly.", quick_replies := some ["More tips"] }

/-- A resolved, parsed chat fetch. -/
def sampleOutcome : FetchOutcome := .response true (.ok sampleResponse)

/-- A chat state whose one quick-reply label carries surrounding spaces. -/
def cexState : ChatState :=
  { chatHistory := []
    chatInputValue := ""
    quickReplies := [" hi "]
    sessionId := none
    localStorage := [] }

/-- The resolved chat fetch used by the counterexample. -/
def cexOutcome : FetchOutcome :=
  .response true (.ok { reply := "ok", quick_replies := some [] })

/-- A sample image file. -/
def sampleFile : JsFile := { name := "leaf.png", mime := "image/png", bytes := [1, 2, 3] }

/-- An upload state with `sampleFile` selected. -/
def sampleUploadState : UploadState :=
  { selectedFile := some sampleFile, previewHTML := "", analyzeDisabled := false }

/-- An empty results region. -/
def sampleRegion : ResultsRegion := { mode := .innerText, content := "" }

/-! ## Helper lemmas about substrings of concatenations -/

theorem substrOf_refl (p : String) : substrOf p p :=
  ⟨[], [], by simp⟩

theorem substrOf_app_r (p s t : String) (h : substrOf p s) : substrOf p (s ++ t) := by
  obtain ⟨u, v, huv⟩ := h
  exact ⟨u, v ++ t.data, by rw [String.data_append, ← huv]; simp [List.append_assoc]⟩

theorem substrOf_app_l (p s t : String) (h : substrOf p t) : substrOf p (s ++ t) := by
  obtain ⟨u, v, huv⟩ := h
  exact ⟨s.data ++ u, v, by rw [String.data_append, ← huv]; simp [List.append_assoc]⟩

/-! ## Helper lemmas about the result card -/

theorem resultCard_substr_plant (result : AnalysisResult) :
    substrOf result.plant (resultCardHtml result) := by
  unfold resultCardHtml
  apply substrOf_app_r
  apply substrOf_app_r
  apply substrOf_app_r
  apply substrOf_app_r
  apply substrOf_app_r
  apply substrOf_app_r
  apply substrOf_app_r
  apply substrOf_app_l
  exact substrOf_refl _

theorem resultCard_substr_status (result : AnalysisResult) :
    substrOf result.status (resultCardHtml result) := by
  unfold resultCardHtml
  apply substrOf_app_r
  apply substrOf_app_r
  apply substrOf_app_r
  apply substrOf_app_r
  apply substrOf_app_r
  apply substrOf_app_l
  exact substrOf_refl _

theorem resultCard_substr_confidence (result : AnalysisResult) :
    substrOf (Nat.repr result.confidence) (resultCardHtml result) := by
  unfold resultCardHtml
  apply substrOf_app_r
  apply substrOf_app_r
  apply substrOf_app_r
  apply substrOf_app_l
  exact substrOf_refl _

theorem resultCard_substr_disease_fields (result : AnalysisResult)
    (h : result.status = "Diseased") :
    substrOf result.disease (resultCardHtml result)
    ∧ substrOf result.symptoms (resultCardHtml result)
    ∧ substrOf result.treatments (resultCardHtml result)
    ∧ substrOf result.prevention (resultCardHtml result) := by
  unfold resultCardHtml
  rw [if_pos h]
  refine ⟨?_, ?_, ?_, ?_⟩
  · apply substrOf_app_r
    apply substrOf_app_l
    apply substrOf_app_r
    apply substrOf_app_r
    apply substrOf_app_r
    apply substrOf_app_r
    apply substrOf_app_r
    apply substrOf_app_r
    apply substrOf_app_r
    apply substrOf_app_l
    exact substrOf_refl _
  · apply substrOf_app_r
    apply substrOf_app_l
    apply substrOf_app_r
    apply substrOf_app_r
    apply substrOf_app_r
    apply substrOf_app_r
    apply substrOf_app_r
    apply substrOf_app_l
    exact substrOf_refl _
  · apply substrOf_app_r
    apply substrOf_app_l
    apply substrOf_app_r
    apply substrOf_app_r
    apply substrOf_app_r
    apply substrOf_app_l
    exact substrOf_refl _
  · apply substrOf_app_r
    apply substrOf_app_l
    apply substrOf_app_r
    apply substrOf_app_l
    exact substrOf_refl _

theorem resultCard_substr_care_tips (result : AnalysisResult)
    (h : ¬ result.status = "Diseased") :
    substrOf result.care_tips (resultCardHtml result) := by
  unfold resultCardHtml
  rw [if_neg h]
  apply substrOf_app_r
  apply substrOf_app_l
  apply substrOf_app_r
  apply substrOf_app_l
  exact substrOf_refl _

theorem resultCard_ignores_care_tips (result : AnalysisResult)
    (h : result.status = "Diseased") (x : String) :
    resultCardHtml { result with care_tips := x } = resultCardHtml result := by
  simp [resultCardHtml, h]

theorem resultCard_ignores_disease_fields (result : AnalysisResult)
    (h : ¬ result.status = "Diseased") (d sy tr pv : String) :
    resultCardHtml { result with
        disease := d
        symptoms := sy
        treatments := tr
        prevention := pv } = resultCardHtml result := by
  simp [resultCardHtml, h]

/-! ## Claim theorems -/

/-- C1: displayResults branches only on the status field: when status is
"Diseased" the rendered fragment contains the disease, symptoms, treatments
and prevention texts and no care-tips block (the output does not depend on
care_tips, and the bare diseased template holds no "Care Tips" text); for
any other status it contains the care_tips text and none of the
disease-specific fields (the output does not depend on them, and the bare
template holds no "Disease" text); in both cases plant, status and
confidence are rendered, and the call replaces the entire contents of the
results region regardless of what it held. -/
theorem displayResults_branches_only_on_status
    (result : AnalysisResult) (resultsDiv other : ResultsRegion) :
    displayResults result resultsDiv = displayResults result other
    ∧ (displayResults result resultsDiv).content = resultCardHtml result
    ∧ substrOf result.plant (resultCardHtml result)
    ∧ substrOf result.status (resultCardHtml result)
    ∧ substrOf (Nat.repr result.confidence) (resultCardHtml result)
    ∧ (if result.status = "Diseased" then
          substrOf result.disease (resultCardHtml result)
          ∧ substrOf result.symptoms (resultCardHtml result)
          ∧ substrOf result.treatments (resultCardHtml result)
          ∧ substrOf result.prevention (resultCardHtml result)
          ∧ ∀ x, resultCardHtml { result with care_tips := x } = resultCardHtml result
        else
          substrOf result.care_tips (resultCardHtml result)
          ∧ ∀ d sy tr pv, resultCardHtml { result with
                disease := d
                symptoms := sy
                treatments := tr
                prevention := pv } = resultCardHtml result)
    ∧ ¬ substrOf "Care Tips" (resultCardHtml diseasedTemplateOnly)
    ∧ ¬ substrOf "Disease" (resultCardHtml healthyTemplateOnly) := by
  refine ⟨rfl, rfl, resultCard_substr_plant result, resultCard_substr_status result,
    resultCard_substr_confidence result, ?_, by decide, by decide⟩
  by_cases h : result.status = "Diseased"
  · rw [if_pos h]
    obtain ⟨h1, h2, h3, h4⟩ := resultCard_substr_disease_fields result h
    exact ⟨h1, h2, h3, h4, fun x => resultCard_ignores_care_tips result h x⟩
  · rw [if_neg h]
    exact ⟨resultCard_substr_care_tips result h,
      fun d sy tr pv => resultCard_ignores_disease_fields result h d sy tr pv⟩

/-- C8: displayResults interpolates the result's fields directly into an
HTML string without escaping: the assignment goes to the region's
innerHTML, the assigned string is the built card, and every interpolated
field — markup and all — appears verbatim as a substring (witnessed
concretely by a plant field holding a script tag). -/
theorem displayResults_no_escaping
    (result : AnalysisResult) (resultsDiv : ResultsRegion) :
    (displayResults result resultsDiv).mode = InsertMode.innerHTML
    ∧ (displayResults result resultsDiv).content = resultCardHtml result
    ∧ substrOf result.plant (resultCardHtml result)
    ∧ substrOf result.status (resultCardHtml result)
    ∧ substrOf (Nat.repr result.confidence) (resultCardHtml result)
    ∧ (if result.status = "Diseased" then
          substrOf result.disease (resultCardHtml result)
          ∧ substrOf result.symptoms (resultCardHtml result)
          ∧ substrOf result.treatments (resultCardHtml result)
          ∧ substrOf result.prevention (resultCardHtml result)
        else
          substrOf result.care_tips (resultCardHtml result))
    ∧ substrOf "<script>alert(1)</script>" (resultCardHtml markupResult) := by
  refine ⟨rfl, rfl, resultCard_substr_plant result, resultCard_substr_status result,
    resultCard_substr_confidence result, ?_, by decide⟩
  by_cases h : result.status = "Diseased"
  · rw [if_pos h]
    exact resultCard_substr_disease_fields result h
  · rw [if_neg h]
    exact resultCard_substr_care_tips result h

/-- C10: addMessage and renderQuickReplies insert text via innerText, so
the displayed content equals the given string exactly — even when it holds
HTML tags — while displayResults assigns via innerHTML, where the browser
parses tags away (shown on a concrete tagged string). -/
theorem chat_text_inserted_verbatim (who text q : String)
    (result : AnalysisResult) (resultsDiv : ResultsRegion) :
    (addMessageNode who text).mode = InsertMode.innerText
    ∧ displayedText (addMessageNode who text) = text
    ∧ (quickReplyButton q).mode = InsertMode.innerText
    ∧ displayedText (quickReplyButton q) = q
    ∧ (displayResults result resultsDiv).mode = InsertMode.innerHTML
    ∧ displayedText { className := "msg bot", mode := .innerText, content := "<b>hi</b>" }
        = "<b>hi</b>"
    ∧ displayedText { className := "", mode := .innerHTML, content := "<b>hi</b>" } = "hi" := by
  exact ⟨rfl, rfl, rfl, rfl, rfl, rfl, by decide⟩

/-- C4: every non-empty file selection (picker or drop) overwrites the
previous selection with the new first file, renders the preview from that
file's bytes as a data URL with no network request, and enables the analyze
button; hence after any selection sequence ending in a non-empty selection
the preview shows exactly the latest selected file. -/
theorem handleFiles_latest_selection (s : UploadState)
    (selections : List (List JsFile)) (f : JsFile) (rest : List JsFile) :
    handleFiles (f :: rest) s =
      { selectedFile := some f
        previewHTML := "<img src=\"" ++ readAsDataURL f ++ "\" alt=\"Preview\">"
        analyzeDisabled := false }
    ∧ uploadRun s (selections ++ [f :: rest]) =
      { selectedFile := some f
        previewHTML := "<img src=\"" ++ readAsDataURL f ++ "\" alt=\"Preview\">"
        analyzeDisabled := false }
    ∧ (fileInputChange (f :: rest) s).2 = []
    ∧ (dropAreaDrop (f :: rest) s).2 = [] := by
  refine ⟨rfl, ?_, rfl, rfl⟩
  unfold uploadRun
  rw [List.foldl_append]
  rfl

/-! ## Helper lemmas about the chat traces -/

theorem requestsOf_append (a b : List DomEvent) :
    requestsOf (a ++ b) = requestsOf a ++ requestsOf b := by
  simp [requestsOf, List.filterMap_append]

theorem storageOpsOf_append (a b : List DomEvent) :
    storageOpsOf (a ++ b) = storageOpsOf a ++ storageOpsOf b := by
  simp [storageOpsOf, List.filter_append]

theorem requestsOf_sendMessage (text : String) (o : FetchOutcome) (s : ChatState) :
    requestsOf (sendMessage text o s) = [{ session_id := s.sessionId, message := text }] := by
  cases o with
  | netError => rfl
  | response ok body => cases body <;> rfl

theorem userAppendsOf_sendMessage (text : String) (o : FetchOutcome) (s : ChatState) :
    userAppendsOf (sendMessage text o s) = [text] := by
  cases o with
  | netError => rfl
  | response ok body => cases body <;> rfl

theorem storageOpsOf_sendMessage (text : String) (o : FetchOutcome) (s : ChatState) :
    storageOpsOf (sendMessage text o s) = [] := by
  cases o with
  | netError => rfl
  | response ok body => cases body <;> rfl

theorem applyDomEvent_sessionId (s : ChatState) (e : DomEvent) :
    (applyDomEvent s e).sessionId = s.sessionId := by
  cases e <;> rfl

theorem runEvents_sessionId (evs : List DomEvent) (s : ChatState) :
    (runEvents s evs).sessionId = s.sessionId := by
  induction evs generalizing s with
  | nil => rfl
  | cons e tl ih =>
    exact (ih (applyDomEvent s e)).trans (applyDomEvent_sessionId s e)

theorem runEvents_localStorage (evs : List DomEvent) (s : ChatState)
    (h : storageOpsOf evs = []) :
    (runEvents s evs).localStorage = s.localStorage := by
  induction evs generalizing s with
  | nil => rfl
  | cons e tl ih =>
    cases e <;> simp [storageOpsOf, List.filter_cons] at h <;>
      exact (ih (applyDomEvent s _) (by simpa [storageOpsOf] using h)).trans rfl

theorem requestsOf_sendBtnClick (o : FetchOutcome) (s : ChatState) :
    ∀ r ∈ requestsOf (sendBtnClick o s), r.session_id = s.sessionId := by
  intro r hr
  unfold sendBtnClick at hr
  by_cases h : jsTrim s.chatInputValue = ""
  · rw [if_pos h] at hr
    simp [requestsOf] at hr
  · rw [if_neg h, requestsOf_sendMessage] at hr
    rw [List.mem_singleton] at hr
    rw [hr]

theorem storageOpsOf_sendBtnClick (o : FetchOutcome) (s : ChatState) :
    storageOpsOf (sendBtnClick o s) = [] := by
  unfold sendBtnClick
  by_cases h : jsTrim s.chatInputValue = ""
  · rw [if_pos h]; rfl
  · rw [if_neg h]; exact storageOpsOf_sendMessage _ o s

theorem requestsOf_stepChat (s : ChatState) (e : ChatEvent) :
    ∀ r ∈ requestsOf (stepChat s e), r.session_id = s.sessionId := by
  intro r hr
  cases e with
  | load => simp [stepChat, windowLoadEvents, requestsOf] at hr
  | setInput v => simp [stepChat, requestsOf] at hr
  | clickSend o => exact requestsOf_sendBtnClick o s r hr
  | keydown key o =>
    simp only [stepChat] at hr
    unfold chatInputKeydown at hr
    by_cases hk : key = "Enter"
    · rw [if_pos hk] at hr
      exact requestsOf_sendBtnClick o s r hr
    · rw [if_neg hk] at hr
      simp [requestsOf] at hr
  | clickQuickReply i o =>
    simp only [stepChat] at hr
    cases hq : List.get? s.quickReplies i with
    | none => rw [hq] at hr; simp [requestsOf] at hr
    | some q =>
      rw [hq, requestsOf_sendMessage] at hr
      rw [List.mem_singleton] at hr
      rw [hr]

theorem storageOpsOf_stepChat (s : ChatState) (e : ChatEvent) :
    storageOpsOf (stepChat s e) = [] := by
  cases e with
  | load => rfl
  | setInput v => rfl
  | clickSend o => exact storageOpsOf_sendBtnClick o s
  | keydown key o =>
    simp only [stepChat]
    unfold chatInputKeydown
    by_cases hk : key = "Enter"
    · rw [if_pos hk]; exact storageOpsOf_sendBtnClick o s
    · rw [if_neg hk]; rfl
  | clickQuickReply i o =>
    simp only [stepChat]
    cases hq : List.get? s.quickReplies i with
    | none => rfl
    | some q => exact storageOpsOf_sendMessage q o s

/-- Invariant of any event sequence: the session identifier and the local
storage never change, no storage operation is ever performed, and every
request carries the state's session identifier. -/
theorem runChat_session_invariant (events : List ChatEvent) (s : ChatState) :
    (runChat s events).1.sessionId = s.sessionId
    ∧ (runChat s events).1.localStorage = s.localStorage
    ∧ storageOpsOf (runChat s events).2 = []
    ∧ ∀ r ∈ requestsOf (runChat s events).2, r.session_id = s.sessionId := by
  induction events generalizing s with
  | nil => exact ⟨rfl, rfl, rfl, fun r hr => by simp [runChat, requestsOf] at hr⟩
  | cons e es ih =>
    have hstep := storageOpsOf_stepChat s e
    have hsid := runEvents_sessionId (stepChat s e) s
    have hls := runEvents_localStorage (stepChat s e) s hstep
    obtain ⟨ih1, ih2, ih3, ih4⟩ := ih (runEvents s (stepChat s e))
    refine ⟨ih1.trans hsid, ih2.trans hls, ?_, ?_⟩
    · show storageOpsOf (stepChat s e ++ (runChat (runEvents s (stepChat s e)) es).2) = []
      rw [storageOpsOf_append, hstep, ih3]
      rfl
    · intro r hr
      replace hr :
          r ∈ requestsOf (stepChat s e ++ (runChat (runEvents s (stepChat s e)) es).2) := hr
      rw [requestsOf_append, List.mem_append] at hr
      rcases hr with hr | hr
      · exact requestsOf_stepChat s e r hr
      · exact (ih4 r hr).trans hsid

/-- C2: for every non-empty message text, sendMessage performs exactly, in
order: append one user-role entry with the text, clear the input, POST
{session_id, message}, and — once the response arrives and parses — append
one bot-role entry with the reply and replace the quick replies with the
server list (empty list clears them); the transcript is append-only. -/
theorem sendMessage_sequence (text : String) (s : ChatState) (ok : Bool)
    (data : ChatResponse) (_hne : text ≠ "") :
    sendMessage text (.response ok (.ok data)) s =
      [DomEvent.appendMsg "user" text, DomEvent.setInputValue "",
       DomEvent.request { session_id := s.sessionId, message := text },
       DomEvent.appendMsg "bot" data.reply,
       DomEvent.setQuickReplies (data.quick_replies.getD [])]
    ∧ requestsOf (sendMessage text (.response ok (.ok data)) s) =
        [{ session_id := s.sessionId, message := text }]
    ∧ userAppendsOf (sendMessage text (.response ok (.ok data)) s) = [text]
    ∧ (runEvents s (sendMessage text (.response ok (.ok data)) s)).chatHistory =
        s.chatHistory ++ [addMessageNode "user" text, addMessageNode "bot" data.reply]
    ∧ (runEvents s (sendMessage text (.response ok (.ok data)) s)).chatInputValue = ""
    ∧ (runEvents s (sendMessage text (.response ok (.ok data)) s)).quickReplies =
        data.quick_replies.getD []
    ∧ s.chatHistory <+: (runEvents s (sendMessage text (.response ok (.ok data)) s)).chatHistory := by
  obtain ⟨hist, inp, qr, sid, store⟩ := s
  refine ⟨rfl, rfl, rfl, ?_, rfl, rfl, ?_⟩
  · simp [runEvents, sendMessage, applyDomEvent]
  · simp [runEvents, sendMessage, applyDomEvent]

/-- Witness for C2 at the concrete message "How to upload a photo?". -/
theorem sendMessage_sequence_witness :
    sampleChatState.chatHistory <+:
      (runEvents sampleChatState
        (sendMessage "How to upload a photo?" (.response true (.ok sampleResponse))
          sampleChatState)).chatHistory :=
  (sendMessage_sequence "How to upload a photo?" sampleChatState true sampleResponse
    (by decide)).2.2.2.2.2.2

/-- C5: pressing Enter in the chat input prevents the default and delegates
to the send-button click handler; the click handler sends nothing when the
trimmed content is empty, and otherwise performs exactly one send, of the
trimmed text, appending exactly one user entry with it. -/
theorem enter_key_single_send (s : ChatState) (outcome : FetchOutcome) :
    (chatInputKeydown "Enter" outcome s).2 = true
    ∧ (chatInputKeydown "Enter" outcome s).1 = sendBtnClick outcome s
    ∧ (jsTrim s.chatInputValue = "" → sendBtnClick outcome s = [])
    ∧ (jsTrim s.chatInputValue ≠ "" →
        requestsOf (sendBtnClick outcome s) =
          [{ session_id := s.sessionId, message := jsTrim s.chatInputValue }]
        ∧ userAppendsOf (sendBtnClick outcome s) = [jsTrim s.chatInputValue]) := by
  refine ⟨rfl, rfl, ?_, ?_⟩
  · intro h
    simp [sendBtnClick, h]
  · intro h
    constructor
    · rw [sendBtnClick, if_neg h]
      exact requestsOf_sendMessage _ outcome s
    · rw [sendBtnClick, if_neg h]
      exact userAppendsOf_sendMessage _ outcome s

/-- C6: on page load, with no network request, the load handler appends
exactly one bot-role welcome entry with the hardcoded text and renders
exactly the two fixed quick-reply buttons; the transcript holds nothing
else. -/
theorem load_welcome_bootstrap (store : List (String × String)) :
    (runEvents (initChat store).1 windowLoadEvents).chatHistory =
      [{ className := "msg bot", mode := InsertMode.innerText,
         content := "Hello — I can help with crop care, uploading, or disease symptoms. Try a quick suggestion." }]
    ∧ (runEvents (initChat store).1 windowLoadEvents).quickReplies =
        ["How to upload a photo?", "Tomato care tips"]
    ∧ (runEvents (initChat store).1 windowLoadEvents).quickReplies.map quickReplyButton =
        [quickReplyButton "How to upload a photo?", quickReplyButton "Tomato care tips"]
    ∧ requestsOf windowLoadEvents = []
    ∧ requestsOf (initChat store).2 = [] := by
  exact ⟨rfl, rfl, rfl, rfl, rfl⟩

/-- C9: the crop_chat_session key is read exactly once, at script load, to
seed the session identifier; no handler performs any further storage
operation or changes the identifier, and every chat request of every event
sequence carries the seeded value (none when the key was absent). -/
theorem session_read_once_and_constant (store : List (String × String))
    (events : List ChatEvent) :
    (initChat store).2 = [DomEvent.storageRead sessionKey]
    ∧ (initChat store).1.sessionId = store.lookup sessionKey
    ∧ (runChat (initChat store).1 events).1.sessionId = store.lookup sessionKey
    ∧ (runChat (initChat store).1 events).1.localStorage = store
    ∧ storageOpsOf (runChat (initChat store).1 events).2 = []
    ∧ ∀ r ∈ requestsOf (runChat (initChat store).1 events).2,
        r.session_id = store.lookup sessionKey := by
  obtain ⟨h1, h2, h3, h4⟩ := runChat_session_invariant events (initChat store).1
  exact ⟨rfl, rfl, h1, h2, h3, h4⟩

/-- C3 counterexample: with a quick-reply label carrying surrounding
whitespace (" hi "), clicking the button and typing the label then clicking
send produce different transcripts — the click sends the raw label while
the typed path sends the trimmed text. -/
theorem quickReply_whitespace_label_cex :
    (runChat cexState [ChatEvent.clickQuickReply 0 cexOutcome]).1.chatHistory ≠
      (runChat cexState [ChatEvent.setInput " hi ", ChatEvent.clickSend cexOutcome]).1.chatHistory := by
  decide

/-- C3 (amended): for every quick-reply label that is non-empty and equal
to its own trim — in particular "Tomato care tips" — clicking the button
and typing the label then submitting produce the same final state and the
same requests, both through the same sendMessage entry point with the label
as argument. -/
theorem quickReply_click_equiv_typed (s : ChatState) (o : FetchOutcome)
    (q : String) (i : Nat) (hq : List.get? s.quickReplies i = some q)
    (ht : jsTrim q = q) (hne : q ≠ "") :
    stepChat s (.clickQuickReply i o) = sendMessage q o s
    ∧ stepChat { s with chatInputValue := q } (.clickSend o) =
        sendMessage q o { s with chatInputValue := q }
    ∧ (runChat s [ChatEvent.clickQuickReply i o]).1 =
        (runChat s [ChatEvent.setInput q, ChatEvent.clickSend o]).1
    ∧ requestsOf (runChat s [ChatEvent.clickQuickReply i o]).2 =
        requestsOf (runChat s [ChatEvent.setInput q, ChatEvent.clickSend o]).2 := by
  obtain ⟨hist, inp, qr, sid, store⟩ := s
  have hstep : stepChat (ChatState.mk hist inp qr sid store) (.clickQuickReply i o) =
      sendMessage q o (ChatState.mk hist inp qr sid store) := by
    simp only [stepChat]
    rw [hq]
  have hsend : stepChat (ChatState.mk hist q qr sid store) (.clickSend o) =
      sendMessage q o (ChatState.mk hist q qr sid store) := by
    simp only [stepChat, sendBtnClick]
    rw [ht, if_neg hne]
  have hmid : runEvents (ChatState.mk hist inp qr sid store)
      (stepChat (ChatState.mk hist inp qr sid store) (ChatEvent.setInput q)) =
      ChatState.mk hist q qr sid store := rfl
  refine ⟨hstep, hsend, ?_, ?_⟩
  · show runEvents _ (stepChat _ (ChatEvent.clickQuickReply i o)) =
      runEvents (runEvents _ (stepChat _ (ChatEvent.setInput q)))
        (stepChat (runEvents _ (stepChat _ (ChatEvent.setInput q))) (ChatEvent.clickSend o))
    rw [hstep, hmid, hsend]
    cases o with
    | netError => simp [runEvents, sendMessage, applyDomEvent]
    | response ok body => cases body <;> simp [runEvents, sendMessage, applyDomEvent]
  · show requestsOf (stepChat _ (ChatEvent.clickQuickReply i o) ++ []) =
      requestsOf (stepChat _ (ChatEvent.setInput q) ++
        (stepChat (runEvents _ (stepChat _ (ChatEvent.setInput q))) (ChatEvent.clickSend o) ++ []))
    rw [hstep, hmid, hsend]
    cases o with
    | netError => rfl
    | response ok body => cases body <;> rfl

/-- Witness for the amended C3 at the label "Tomato care tips". -/
theorem quickReply_click_equiv_typed_witness :
    stepChat sampleChatState (.clickQuickReply 1 sampleOutcome) =
      sendMessage "Tomato care tips" sampleOutcome sampleChatState :=
  (quickReply_click_equiv_typed sampleChatState sampleOutcome "Tomato care tips" 1
    (by decide) (by decide) (by decide)).1

/-- C7: a failed fetch or an unparsable body, in the chat flow or the
upload flow, is caught nowhere: the rejection propagates, no user-visible
message is produced (the results region and the quick replies are left
untouched), and the user entry already appended and the cleared input
remain; the HTTP ok flag is never read, so a non-2xx response with a
parsable body is handled no differently from a 2xx one. -/
theorem errors_unhandled (text : String) (s : ChatState) (o : FetchOutcome)
    (uo : UploadOutcome) (u : UploadState) (f : JsFile) (region : ResultsRegion)
    (hchat : chatErrorOf o ≠ none) (hup : analyzeErrorOf uo ≠ none)
    (hfile : u.selectedFile = some f) :
    sendMessage text o s =
      [DomEvent.appendMsg "user" text, DomEvent.setInputValue "",
       DomEvent.request { session_id := s.sessionId, message := text }]
    ∧ (runEvents s (sendMessage text o s)).chatHistory =
        s.chatHistory ++ [addMessageNode "user" text]
    ∧ (runEvents s (sendMessage text o s)).chatInputValue = ""
    ∧ (runEvents s (sendMessage text o s)).quickReplies = s.quickReplies
    ∧ (analyzeClick uo u region).1 = region
    ∧ (analyzeClick uo u region).2.1 = [{ file := f }]
    ∧ (analyzeClick uo u region).2.2 = analyzeErrorOf uo
    ∧ (∀ ok1 ok2 body, sendMessage text (.response ok1 body) s =
        sendMessage text (.response ok2 body) s)
    ∧ (∀ ok1 ok2 body, analyzeClick (.response ok1 body) u region =
        analyzeClick (.response ok2 body) u region) := by
  have htrace : sendMessage text o s =
      [DomEvent.appendMsg "user" text, DomEvent.setInputValue "",
       DomEvent.request { session_id := s.sessionId, message := text }] := by
    cases o with
    | netError => rfl
    | response ok body =>
      cases body with
      | error e => rfl
      | ok data => exact absurd rfl hchat
  have hclick : analyzeClick uo u region =
      (region, [{ file := f }], analyzeErrorOf uo) := by
    cases uo with
    | netError => simp [analyzeClick, hfile, analyzeErrorOf]
    | response ok body =>
      cases body with
      | error e => simp [analyzeClick, hfile, analyzeErrorOf]
      | ok data => exact absurd rfl hup
  obtain ⟨hist, inp, qr, sid, store⟩ := s
  refine ⟨htrace, ?_, ?_, ?_, ?_, ?_, ?_, ?_, ?_⟩
  · rw [htrace]; rfl
  · rw [htrace]; rfl
  · rw [htrace]; rfl
  · rw [hclick]
  · rw [hclick]
  · rw [hclick]
  · intro ok1 ok2 body; cases body <;> rfl
  · intro ok1 ok2 body
    cases body <;> simp [analyzeClick, hfile]

/-- Witness for C7: a failed network request in both flows. -/
theorem errors_unhandled_witness :
    (analyzeClick UploadOutcome.netError sampleUploadState sampleRegion).1 = sampleRegion :=
  (errors_unhandled "hi" sampleChatState FetchOutcome.netError UploadOutcome.netError
    sampleUploadState sampleFile sampleRegion (by decide) (by decide) rfl).2.2.2.2.1

end CropAI
